import Mathlib

/-!
Verification development for the Verifly backend (server.js, final draft).

The persistent state lives in three external tables (subscriptions, credits,
scans); queries are modelled as list operations. The supabase `.single()`
read returns a row only when the filtered result has exactly one row
(on zero or several rows the client reports an error and the destructured
`data` is null); `single` below embeds that behaviour.
-/

/-- Row of the `subscriptions` table: only the columns the code consults. -/
structure SubRow where
  user_id : String
  status : String
deriving DecidableEq

/-- Row of the `credits` table. -/
structure CreditRow where
  user_id : String
  credits : Int
deriving DecidableEq

/-- Row of the `scans` table. -/
structure ScanRow where
  user_id : String
  score : ℚ
  is_ai : Bool
deriving DecidableEq

/-- The external database state. -/
structure DB where
  subscriptions : List SubRow
  credits : List CreditRow
  scans : List ScanRow
deriving DecidableEq

/-- Supabase `.single()`: the row when the result set has exactly one row,
otherwise the client errors and the destructured data is null. -/
def single {α : Type} (l : List α) : Option α :=
  match l with
  | [a] => some a
  | _ => none

/-- Query `from("subscriptions").eq("user_id", userId).eq("status", "active")`. -/
def activeSubsFor (db : DB) (userId : String) : List SubRow :=
  db.subscriptions.filter fun s => s.user_id == userId && s.status == "active"

/-- Query `from("credits").eq("user_id", userId)`. -/
def creditRowsFor (db : DB) (userId : String) : List CreditRow :=
  db.credits.filter fun c => c.user_id == userId

/-- Query `from("scans").select("*", count exact).eq("user_id", userId)`. -/
def scanCount (db : DB) (userId : String) : Nat :=
  (db.scans.filter fun s => s.user_id == userId).length

/-- Total purchased credits over all of the user's rows (the sum the
single-row reads do not see). -/
def creditSum (db : DB) (userId : String) : Int :=
  ((creditRowsFor db userId).map CreditRow.credits).sum

/-- server.js `checkUserAccess` (lines 501-532): active subscription row
(single) grants; else a single credits row with positive balance grants;
else grant exactly when the user has no scan rows yet. -/
def checkUserAccess (db : DB) (userId : String) : Bool :=
  match single (activeSubsFor db userId) with
  | some _ => true
  | none =>
    match single (creditRowsFor db userId) with
    | some c => if 0 < c.credits then true else scanCount db userId == 0
    | none => scanCount db userId == 0

/-- server.js `recordScan` (lines 534-557): unconditionally insert a scan
row, then re-read the user's credits with `.single()` and, when the row is
positive, update every row of the user to that balance minus one. -/
def recordScan (db : DB) (userId : String) (score : ℚ) (isAI : Bool) : DB :=
  let db1 : DB := { db with scans := db.scans ++ [⟨userId, score, isAI⟩] }
  match single (creditRowsFor db1 userId) with
  | some c =>
    if 0 < c.credits then
      { db1 with credits := db1.credits.map fun r =>
          if r.user_id == userId then { r with credits := c.credits - 1 } else r }
    else db1
  | none => db1

/-- server.js `detectAI` (lines 559-584): ignores the uploaded file and
returns the sample drawn from the random source (`Math.random()`), passed
here as an explicit argument. -/
def detectAI (file : List Nat) (rand : ℚ) : ℚ := rand

/-- The fixed classification threshold 0.5 of the code (`aiScore > 0.5`),
written as an explicit rational. -/
def half : ℚ := ⟨1, 2, by decide, by decide⟩

/-- Identity returned by the external auth service (`supabase.auth.getUser`). -/
structure UserIdent where
  id : String
  emailVerified : Bool
deriving DecidableEq

/-- The parts of a `/scan` request the handler reads: the authorization
header and the uploaded file (bytes). -/
structure ScanReq where
  authHeader : Option String
  file : Option (List Nat)
deriving DecidableEq

/-- Responses of the `/scan` route: 401 missing header, 401 invalid token,
400 no file, 403 FREE_SCAN_USED, or the success payload. -/
inductive ScanResp where
  | missingAuthHeader
  | invalidToken
  | noFileUploaded
  | freeScanUsed
  | ok (aiScore : ℚ) (isAI : Bool)
deriving DecidableEq

/-- server.js `app.post("/scan")` (lines 455-497). The token-to-identity
resolution is the external auth collaborator; its outcome is the
`authResult` argument. `rand` is the `Math.random()` sample consumed by
`detectAI`. Returns the response together with the database state. -/
def scanHandler (authResult : Option UserIdent) (rand : ℚ) (req : ScanReq) (db : DB) :
    ScanResp × DB :=
  match req.authHeader with
  | none => (.missingAuthHeader, db)
  | some _ =>
    match authResult with
    | none => (.invalidToken, db)
    | some user =>
      match req.file with
      | none => (.noFileUploaded, db)
      | some f =>
        if checkUserAccess db user.id then
          let aiScore := detectAI f rand
          let isAI := decide (half < aiScore)
          (.ok aiScore isAI, recordScan db user.id aiScore isAI)
        else (.freeScanUsed, db)

/-- Stripe event fields the webhook handler reads. -/
structure StripeEvent where
  type : String
  mode : String
  metadataUserId : String
deriving DecidableEq

/-- Responses of the `/webhook` route: 400 on signature failure, else 200. -/
inductive HookResp where
  | sigError (msg : String)
  | received
deriving DecidableEq

/-- server.js `app.post("/webhook")` (lines 409-451): `constructEvent` is
the payment provider's signature verifier (raw body, signature header,
shared secret); on failure respond 400 and touch nothing; on a completed
checkout in payment mode insert a fresh credits row with credits = 1 for
the user named in the event metadata. -/
def webhookHandler (constructEvent : String → String → String → Except String StripeEvent)
    (secret body sig : String) (db : DB) : HookResp × DB :=
  match constructEvent body sig secret with
  | .error msg => (.sigError msg, db)
  | .ok event =>
    if event.type == "checkout.session.completed" then
      if event.mode == "payment" then
        (.received, { db with credits := db.credits ++ [⟨event.metadataUserId, 1⟩] })
      else (.received, db)
    else (.received, db)

/-- Modelled from the spec: the per-plan monthly limit table of section 4.2
step 3 (no such table exists in src). free 1, starter 25, pro 100,
power 500, anything else 1. -/
def planLimit (plan : String) : Nat :=
  if plan == "free" then 1
  else if plan == "starter" then 25
  else if plan == "pro" then 100
  else if plan == "power" then 500
  else 1

/-- Stored entitlement record of a user, as the spec's evaluator reads it. -/
structure EvalUser where
  planType : String
  usage : Nat
  resetYear : Nat
  resetMonth : Nat
deriving DecidableEq

/-- Result of the spec's entitlement evaluation. -/
structure EvalResult where
  allowed : Bool
  remaining : Int
  planType : String
  reason : Option String
deriving DecidableEq

/-- Modelled from the spec: `evaluate` of section 4.2 (no month-rollover or
plan-limit code exists in src). Step 2 resets usage and the reset stamp on
a calendar-month change before the limit check; step 4 grants on plan
allowance with remaining = limit - usage - 1; step 5 falls back to the
credit balance; step 6 denies. Returns the result and the persisted user. -/
def evaluate (nowYear nowMonth : Nat) (u : EvalUser) (creditBalance : Int) :
    EvalResult × EvalUser :=
  let u1 := if u.resetYear == nowYear && u.resetMonth == nowMonth then u
            else { u with usage := 0, resetYear := nowYear, resetMonth := nowMonth }
  let limit := planLimit u1.planType
  if u1.usage < limit then
    ({ allowed := true, remaining := (limit : Int) - u1.usage - 1,
       planType := u1.planType, reason := none }, u1)
  else if 0 < creditBalance then
    ({ allowed := true, remaining := creditBalance - 1,
       planType := "credit", reason := none }, u1)
  else
    ({ allowed := false, remaining := 0,
       planType := u1.planType, reason := some "ScanLimitReached" }, u1)

/-- Rate-limit window record for one (ip, endpoint) pair. -/
structure WindowRec where
  windowStart : Int
  count : Nat
deriving DecidableEq

/-- Modelled from the spec: the rate-limit `check` of section 4.4 (no rate
limiter exists in src). The state is the most recent window record of the
(ip, endpoint) pair. A record is visible when its start is at or after
`now - windowMinutes`; with no visible record create one with count 1 and
allow; with count below the maximum increment and allow; otherwise deny
without incrementing. -/
def rlCheck (now windowMinutes : Int) (maxRequests : Nat) (w : Option WindowRec) :
    Bool × Option WindowRec :=
  match w with
  | none => (true, some ⟨now, 1⟩)
  | some r =>
    if now - windowMinutes ≤ r.windowStart then
      if r.count < maxRequests then (true, some ⟨r.windowStart, r.count + 1⟩)
      else (false, some r)
    else (true, some ⟨now, 1⟩)

/-- State after `n` rate-limit checks, all arriving at time `now`, starting
from no window record. -/
def rlRun (now windowMinutes : Int) (maxRequests : Nat) : Nat → Option WindowRec
  | 0 => none
  | n + 1 => (rlCheck now windowMinutes maxRequests
      (rlRun now windowMinutes maxRequests n)).2

/-- Whether the request after `n` previous ones (all at time `now`) is
admitted. -/
def rlAllowed (now windowMinutes : Int) (maxRequests n : Nat) : Bool :=
  (rlCheck now windowMinutes maxRequests (rlRun now windowMinutes maxRequests n)).1

/-- Concrete rational 1/4, a possible `Math.random()` sample. -/
def quarter : ℚ := ⟨1, 4, by decide, by decide⟩

/-- Concrete rational 3/4, a possible `Math.random()` sample. -/
def threeQuarters : ℚ := ⟨3, 4, by decide, by decide⟩

/-- A well-formed `/scan` request: auth header present, a file uploaded. -/
def reqOk : ScanReq := { authHeader := some "Bearer tok", file := some [0] }

/-- Database with no rows at all. -/
def emptyDB : DB := ⟨[], [], []⟩

/-- Database of a user holding both an active subscription and 3 credits. -/
def dbSubAndCredits : DB := ⟨[⟨"u1", "active"⟩], [⟨"u1", 3⟩], []⟩

/-- Database of a user holding both an active subscription and 5 credits. -/
def dbSubAndCredits5 : DB := ⟨[⟨"u2", "active"⟩], [⟨"u2", 5⟩], []⟩

/-- Database of a subscribed user who already made 500 scans. -/
def dbHeavyUse : DB := ⟨[⟨"u1", "active"⟩], [], List.replicate 500 ⟨"u1", 0, false⟩⟩

/-- Database of a user who bought two credit packs (two separate rows) and
already used the free scan. -/
def dbTwoCredits : DB := ⟨[], [⟨"u4", 1⟩, ⟨"u4", 1⟩], [⟨"u4", quarter, false⟩]⟩

theorem half_eq : half = 1 / 2 := by
  rw [half, Rat.mk'_eq_divInt, Rat.divInt_eq_div]
  norm_num

theorem single_eq_some_iff {α : Type} (l : List α) (a : α) :
    single l = some a ↔ l = [a] := by
  cases l with
  | nil => simp [single]
  | cons x t =>
    cases t with
    | nil => simp [single]
    | cons y t2 => simp [single]

theorem single_eq_none_of_two_le {α : Type} (l : List α) (h : 2 ≤ l.length) :
    single l = none := by
  cases l with
  | nil => simp at h
  | cons x t =>
    cases t with
    | nil => simp at h
    | cons y t2 => rfl

theorem creditRowsFor_append_self (db : DB) (uid : String) (n : Int) :
    creditRowsFor { db with credits := db.credits ++ [⟨uid, n⟩] } uid
      = creditRowsFor db uid ++ [⟨uid, n⟩] := by
  unfold creditRowsFor
  rw [List.filter_append]
  simp

theorem creditRowsFor_append_other (db : DB) (uid v : String) (n : Int)
    (h : v ≠ uid) :
    creditRowsFor { db with credits := db.credits ++ [⟨uid, n⟩] } v
      = creditRowsFor db v := by
  unfold creditRowsFor
  rw [List.filter_append]
  simp [Ne.symm h]

/-- C4: a billing webhook event whose signature fails verification is
answered with the 400 signature-failure response and the database (plans,
credits, scans) is left exactly as it was. -/
theorem webhook_invalid_signature_no_mutation
    (constructEvent : String → String → String → Except String StripeEvent)
    (secret body sig msg : String) (db : DB)
    (h : constructEvent body sig secret = Except.error msg) :
    webhookHandler constructEvent secret body sig db = (HookResp.sigError msg, db) := by
  unfold webhookHandler
  rw [h]

/-- Witness for C4: a verifier that rejects this request yields the 400
response and an unchanged database. -/
theorem webhook_invalid_signature_no_mutation_witness :
    webhookHandler (fun _ _ _ => Except.error "bad sig") "sec" "raw" "hdr"
        ⟨[⟨"u1", "active"⟩], [⟨"u1", 2⟩], []⟩
      = (HookResp.sigError "bad sig", ⟨[⟨"u1", "active"⟩], [⟨"u1", 2⟩], []⟩) :=
  webhook_invalid_signature_no_mutation (fun _ _ _ => Except.error "bad sig")
    "sec" "raw" "hdr" "bad sig" ⟨[⟨"u1", "active"⟩], [⟨"u1", 2⟩], []⟩ rfl

/-- C5: a verified checkout-completed event in payment mode appends one
fresh credits row with credits = 1 for the metadata user, so that user's
total rises by exactly 1 while every other user's rows and all other
tables stay untouched. -/
theorem webhook_checkout_payment_adds_one_credit
    (constructEvent : String → String → String → Except String StripeEvent)
    (secret body sig : String) (ev : StripeEvent) (db : DB)
    (h1 : constructEvent body sig secret = Except.ok ev)
    (h2 : ev.type = "checkout.session.completed")
    (h3 : ev.mode = "payment") :
    (webhookHandler constructEvent secret body sig db).1 = HookResp.received
  ∧ (webhookHandler constructEvent secret body sig db).2.credits
      = db.credits ++ [⟨ev.metadataUserId, 1⟩]
  ∧ creditSum (webhookHandler constructEvent secret body sig db).2 ev.metadataUserId
      = creditSum db ev.metadataUserId + 1
  ∧ (webhookHandler constructEvent secret body sig db).2.subscriptions
      = db.subscriptions
  ∧ (webhookHandler constructEvent secret body sig db).2.scans = db.scans
  ∧ ∀ v, v ≠ ev.metadataUserId →
      creditRowsFor (webhookHandler constructEvent secret body sig db).2 v
        = creditRowsFor db v := by
  have hw : webhookHandler constructEvent secret body sig db
      = (HookResp.received,
         { db with credits := db.credits ++ [⟨ev.metadataUserId, 1⟩] }) := by
    unfold webhookHandler
    rw [h1]
    simp [h2, h3]
  rw [hw]
  refine ⟨rfl, rfl, ?_, rfl, rfl, ?_⟩
  · unfold creditSum
    rw [creditRowsFor_append_self]
    simp
  · intro v hv
    exact creditRowsFor_append_other db ev.metadataUserId v 1 hv

/-- Witness for C5: a concrete verified payment event for user u1 against a
database where u1 already owns one credit row. -/
theorem webhook_checkout_payment_adds_one_credit_witness :
    (webhookHandler
        (fun _ _ _ => Except.ok ⟨"checkout.session.completed", "payment", "u1"⟩)
        "sec" "raw" "hdr" ⟨[], [⟨"u1", 1⟩], []⟩).2.credits
      = [⟨"u1", 1⟩, ⟨"u1", 1⟩]
  ∧ creditSum (webhookHandler
        (fun _ _ _ => Except.ok ⟨"checkout.session.completed", "payment", "u1"⟩)
        "sec" "raw" "hdr" ⟨[], [⟨"u1", 1⟩], []⟩).2 "u1"
      = creditSum ⟨[], [⟨"u1", 1⟩], []⟩ "u1" + 1 :=
  have H := webhook_checkout_payment_adds_one_credit
    (fun _ _ _ => Except.ok ⟨"checkout.session.completed", "payment", "u1"⟩)
    "sec" "raw" "hdr" ⟨"checkout.session.completed", "payment", "u1"⟩
    ⟨[], [⟨"u1", 1⟩], []⟩ rfl rfl rfl
  ⟨H.2.1, H.2.2.1⟩

theorem recordScan_scans (db : DB) (uid : String) (score : ℚ) (ai : Bool) :
    (recordScan db uid score ai).scans = db.scans ++ [⟨uid, score, ai⟩] := by
  unfold recordScan
  dsimp only
  split
  · split <;> rfl
  · rfl

theorem recordScan_subscriptions (db : DB) (uid : String) (score : ℚ) (ai : Bool) :
    (recordScan db uid score ai).subscriptions = db.subscriptions := by
  unfold recordScan
  dsimp only
  split
  · split <;> rfl
  · rfl

theorem recordScan_scanCount (db : DB) (uid : String) (score : ℚ) (ai : Bool) :
    scanCount (recordScan db uid score ai) uid = scanCount db uid + 1 := by
  unfold scanCount
  rw [recordScan_scans, List.filter_append]
  simp

theorem recordScan_credits_of_none (db : DB) (uid : String) (score : ℚ) (ai : Bool)
    (h : single (creditRowsFor db uid) = none) :
    (recordScan db uid score ai).credits = db.credits := by
  unfold recordScan
  have h1 : single (creditRowsFor
      { db with scans := db.scans ++ [⟨uid, score, ai⟩] } uid) = none := h
  dsimp only
  rw [h1]

theorem recordScan_credits_of_nonpos (db : DB) (uid : String) (score : ℚ) (ai : Bool)
    (c : CreditRow) (h : single (creditRowsFor db uid) = some c)
    (hng : ¬ 0 < c.credits) :
    (recordScan db uid score ai).credits = db.credits := by
  unfold recordScan
  have h1 : single (creditRowsFor
      { db with scans := db.scans ++ [⟨uid, score, ai⟩] } uid) = some c := h
  dsimp only
  rw [h1]
  simp [hng]

theorem recordScan_creditSum_of_pos (db : DB) (uid : String) (score : ℚ) (ai : Bool)
    (c : CreditRow) (h : single (creditRowsFor db uid) = some c)
    (hpos : 0 < c.credits) :
    creditSum (recordScan db uid score ai) uid = creditSum db uid - 1 := by
  have hrow : creditRowsFor db uid = [c] := (single_eq_some_iff _ _).mp h
  have hmem : (c.user_id == uid) = true := by
    have hc : c ∈ db.credits.filter fun r => r.user_id == uid := by
      rw [show (db.credits.filter fun r => r.user_id == uid) = [c] from hrow]
      exact List.mem_singleton.mpr rfl
    exact (List.mem_filter.mp hc).2
  have h1 : single (creditRowsFor
      { db with scans := db.scans ++ [⟨uid, score, ai⟩] } uid) = some c := h
  unfold recordScan
  dsimp only
  rw [h1]
  dsimp only
  rw [if_pos hpos]
  unfold creditSum creditRowsFor
  have hfm : (db.credits.map fun r =>
        if r.user_id == uid then { r with credits := c.credits - 1 } else r).filter
        (fun r => r.user_id == uid)
      = (db.credits.filter fun r => r.user_id == uid).map fun r =>
          if r.user_id == uid then { r with credits := c.credits - 1 } else r := by
    rw [List.filter_map]
    congr 1
    apply List.filter_congr
    intro r _
    by_cases hr : (r.user_id == uid) = true
    · simp [Function.comp, hr]
    · simp [Function.comp, hr]
  have hrow2 : List.filter (fun r => r.user_id == uid) db.credits = [c] := hrow
  rw [hfm, hrow2]
  simp [hmem, eq_of_beq hmem]

/-- Counterexample to C2: a user holding an active subscription and 3
credits makes one successful scan; the scan count rises by 1 AND the
credit balance drops by 1 — both allowance counters change, not exactly
one. -/
theorem scan_double_charge_cex :
    (scanHandler (some ⟨"u1", true⟩) quarter reqOk dbSubAndCredits).1
      = ScanResp.ok quarter false
  ∧ scanCount (scanHandler (some ⟨"u1", true⟩) quarter reqOk dbSubAndCredits).2 "u1"
      = scanCount dbSubAndCredits "u1" + 1
  ∧ creditSum (scanHandler (some ⟨"u1", true⟩) quarter reqOk dbSubAndCredits).2 "u1"
      = creditSum dbSubAndCredits "u1" - 1
  ∧ creditSum dbSubAndCredits "u1" = 3 := by decide

/-- C2 as amended: a successful scan always appends exactly one scan record
(usage rises by 1), and in addition decrements the user's single credits
row by exactly 1 whenever that row is positive — the recorder re-reads the
credit balance instead of mirroring the evaluator's branch, so a user
holding both allowances is charged on both counters. -/
theorem recordScan_charges (db : DB) (uid : String) (score : ℚ) (ai : Bool) :
    (recordScan db uid score ai).scans = db.scans ++ [⟨uid, score, ai⟩]
  ∧ scanCount (recordScan db uid score ai) uid = scanCount db uid + 1
  ∧ (recordScan db uid score ai).subscriptions = db.subscriptions
  ∧ (∀ c, single (creditRowsFor db uid) = some c → 0 < c.credits →
      creditSum (recordScan db uid score ai) uid = creditSum db uid - 1)
  ∧ (∀ c, single (creditRowsFor db uid) = some c → ¬ 0 < c.credits →
      (recordScan db uid score ai).credits = db.credits)
  ∧ (single (creditRowsFor db uid) = none →
      (recordScan db uid score ai).credits = db.credits) := by
  refine ⟨recordScan_scans db uid score ai, recordScan_scanCount db uid score ai,
    recordScan_subscriptions db uid score ai, ?_, ?_, ?_⟩
  · intro c hc hpos
    exact recordScan_creditSum_of_pos db uid score ai c hc hpos
  · intro c hc hng
    exact recordScan_credits_of_nonpos db uid score ai c hc hng
  · intro hn
    exact recordScan_credits_of_none db uid score ai hn

/-- Witness for the amended C2 at the subscription-plus-credits database. -/
theorem recordScan_charges_witness :
    scanCount (recordScan dbSubAndCredits "u1" quarter false) "u1"
      = scanCount dbSubAndCredits "u1" + 1
  ∧ creditSum (recordScan dbSubAndCredits "u1" quarter false) "u1"
      = creditSum dbSubAndCredits "u1" - 1 :=
  have H := recordScan_charges dbSubAndCredits "u1" quarter false
  ⟨H.2.1, H.2.2.2.1 ⟨"u1", 3⟩ (by decide) (by decide)⟩

/-- Counterexample to C3: a user with remaining subscription allowance and
a credit balance of 5 is granted a scan, after which the credit balance is
4 — the credit balance did not stay unchanged. -/
theorem credits_not_last_resort_cex :
    checkUserAccess dbSubAndCredits5 "u2" = true
  ∧ creditSum dbSubAndCredits5 "u2" = 5
  ∧ (scanHandler (some ⟨"u2", true⟩) threeQuarters reqOk dbSubAndCredits5).1
      = ScanResp.ok threeQuarters true
  ∧ creditSum (scanHandler (some ⟨"u2", true⟩) threeQuarters reqOk dbSubAndCredits5).2 "u2"
      = 4 := by decide

/-- C3 as amended: the evaluator does consult the subscription before
credits (an active subscription row grants access whatever the balance),
but the recorder consumes a credit whenever the user's single credits row
is positive, even when the subscription allowance granted the scan —
credits are charged eagerly at recording, not held as last resort. -/
theorem subscription_first_but_credits_charged (db : DB) (uid : String)
    (score : ℚ) (ai : Bool) :
    (∀ s, single (activeSubsFor db uid) = some s → checkUserAccess db uid = true)
  ∧ (∀ c, single (creditRowsFor db uid) = some c → 0 < c.credits →
      creditSum (recordScan db uid score ai) uid = creditSum db uid - 1) := by
  constructor
  · intro s hs
    unfold checkUserAccess
    rw [hs]
  · intro c hc hpos
    exact recordScan_creditSum_of_pos db uid score ai c hc hpos

/-- Witness for the amended C3 at the subscription-plus-5-credits database. -/
theorem subscription_first_but_credits_charged_witness :
    checkUserAccess dbSubAndCredits5 "u2" = true
  ∧ creditSum (recordScan dbSubAndCredits5 "u2" quarter false) "u2"
      = creditSum dbSubAndCredits5 "u2" - 1 :=
  have H := subscription_first_but_credits_charged dbSubAndCredits5 "u2" quarter false
  ⟨H.1 ⟨"u2", "active"⟩ (by decide), H.2 ⟨"u2", 5⟩ (by decide) (by decide)⟩

set_option maxRecDepth 40000 in
/-- Counterexample to C1: a subscribed user with 500 recorded scans is
allowed by `checkUserAccess`, yet a usage of 500 is not below the monthly
limit of any plan in the claimed table (free 1, starter 25, pro 100,
power 500, unknown 1) — the code has no per-plan limit at all. -/
theorem plan_limit_table_cex :
    checkUserAccess dbHeavyUse "u1" = true
  ∧ scanCount dbHeavyUse "u1" = 500
  ∧ planLimit "free" = 1 ∧ planLimit "starter" = 25 ∧ planLimit "pro" = 100
  ∧ planLimit "power" = 500 ∧ planLimit "gold" = 1
  ∧ ¬ scanCount dbHeavyUse "u1" < planLimit "free"
  ∧ ¬ scanCount dbHeavyUse "u1" < planLimit "starter"
  ∧ ¬ scanCount dbHeavyUse "u1" < planLimit "pro"
  ∧ ¬ scanCount dbHeavyUse "u1" < planLimit "power" := by decide

/-- C1 as amended: the code implements no per-plan limit table and reports
no remaining count. Access is granted exactly when the user has exactly one
active subscription row, or exactly one credits row with positive balance,
or no scan rows yet; a user with neither subscription nor credits rows is
governed only by the free limit of 1. -/
theorem checkUserAccess_amended (db : DB) (uid : String) :
    (checkUserAccess db uid = true ↔
      ((∃ s, activeSubsFor db uid = [s])
        ∨ (∃ c, creditRowsFor db uid = [c] ∧ 0 < c.credits)
        ∨ scanCount db uid = 0))
  ∧ (activeSubsFor db uid = [] → creditRowsFor db uid = [] →
      checkUserAccess db uid = decide (scanCount db uid < planLimit "free")) := by
  constructor
  · cases hs : single (activeSubsFor db uid) with
    | some s =>
      simp only [checkUserAccess, hs]
      constructor
      · intro _
        exact Or.inl ⟨s, (single_eq_some_iff _ _).mp hs⟩
      · intro _
        trivial
    | none =>
      cases hc : single (creditRowsFor db uid) with
      | some c =>
        by_cases hpos : 0 < c.credits
        · simp only [checkUserAccess, hs, hc, if_pos hpos]
          constructor
          · intro _
            exact Or.inr (Or.inl ⟨c, (single_eq_some_iff _ _).mp hc, hpos⟩)
          · intro _
            trivial
        · simp only [checkUserAccess, hs, hc, if_neg hpos, beq_iff_eq]
          constructor
          · intro h
            exact Or.inr (Or.inr h)
          · rintro (⟨s, hrow⟩ | ⟨c2, hrow, hpos2⟩ | h)
            · rw [hrow] at hs
              simp [single] at hs
            · rw [hrow] at hc
              rw [show single [c2] = some c2 from rfl] at hc
              cases hc
              exact absurd hpos2 hpos
            · exact h
      | none =>
        simp only [checkUserAccess, hs, hc, beq_iff_eq]
        constructor
        · intro h
          exact Or.inr (Or.inr h)
        · rintro (⟨s, hrow⟩ | ⟨c2, hrow, hpos2⟩ | h)
          · rw [hrow] at hs
            simp [single] at hs
          · rw [hrow] at hc
            simp [single] at hc
          · exact h
  · intro h1 h2
    have hs : single (activeSubsFor db uid) = none := by rw [h1]; rfl
    have hc : single (creditRowsFor db uid) = none := by rw [h2]; rfl
    simp only [checkUserAccess, hs, hc]
    cases hn : scanCount db uid with
    | zero => rfl
    | succ k => rfl

/-- Witness for the amended C1 at a fresh user with no rows at all. -/
theorem checkUserAccess_amended_witness :
    checkUserAccess emptyDB "u9" = true
  ∧ checkUserAccess emptyDB "u9" = decide (scanCount emptyDB "u9" < planLimit "free") :=
  have H := checkUserAccess_amended emptyDB "u9"
  ⟨H.1.mpr (Or.inr (Or.inr rfl)), H.2 rfl rfl⟩

theorem planLimit_pos (p : String) : 0 < planLimit p := by
  unfold planLimit
  repeat' split
  all_goals decide

/-- C6: when the stored reset stamp is in a different calendar month, the
evaluation first persists usage 0 and the current month, and reaches the
same decision as for the reset record — the stored usage value is
irrelevant, and the scan is allowed (every limit is positive). -/
theorem evaluate_month_rollover (nowYear nowMonth : Nat) (u : EvalUser)
    (creditBalance : Int)
    (h : u.resetYear ≠ nowYear ∨ u.resetMonth ≠ nowMonth) :
    evaluate nowYear nowMonth u creditBalance
      = evaluate nowYear nowMonth
          { u with usage := 0, resetYear := nowYear, resetMonth := nowMonth }
          creditBalance
  ∧ (evaluate nowYear nowMonth u creditBalance).2
      = { u with usage := 0, resetYear := nowYear, resetMonth := nowMonth }
  ∧ (evaluate nowYear nowMonth u creditBalance).1.allowed = true := by
  have hguard : (u.resetYear == nowYear && u.resetMonth == nowMonth) = false := by
    rcases h with h | h <;> simp [h]
  have hpos := planLimit_pos u.planType
  refine ⟨?_, ?_, ?_⟩
  · simp [evaluate, hguard]
  · simp [evaluate, hguard, hpos]
  · simp [evaluate, hguard, hpos]

/-- Witness for C6: a stored stamp of 2026-04 evaluated in 2026-05 with a
usage of 99 on the pro plan. -/
theorem evaluate_month_rollover_witness :
    evaluate 2026 5 ⟨"pro", 99, 2026, 4⟩ 0 = evaluate 2026 5 ⟨"pro", 0, 2026, 5⟩ 0
  ∧ (evaluate 2026 5 ⟨"pro", 99, 2026, 4⟩ 0).2 = ⟨"pro", 0, 2026, 5⟩
  ∧ (evaluate 2026 5 ⟨"pro", 99, 2026, 4⟩ 0).1.allowed = true :=
  evaluate_month_rollover 2026 5 ⟨"pro", 99, 2026, 4⟩ 0 (Or.inr (by decide))

theorem rlRun_succ_eq (t wm : Int) (m : Nat) (hwm : 0 ≤ wm) (hm : 1 ≤ m) :
    ∀ n, rlRun t wm m (n + 1) = some ⟨t, min (n + 1) m⟩ := by
  intro n
  induction n with
  | zero =>
    show (rlCheck t wm m (rlRun t wm m 0)).2 = _
    simp only [rlRun, rlCheck]
    simp only [Option.some.injEq, WindowRec.mk.injEq, true_and]
    omega
  | succ k ih =>
    show (rlCheck t wm m (rlRun t wm m (k + 1))).2 = _
    rw [ih]
    unfold rlCheck
    dsimp only
    rw [if_pos (by omega : t - wm ≤ t)]
    by_cases hlt : min (k + 1) m < m
    · rw [if_pos hlt]
      simp only [Option.some.injEq, WindowRec.mk.injEq, true_and]
      omega
    · rw [if_neg hlt]
      simp only [Option.some.injEq, WindowRec.mk.injEq, true_and]
      omega

/-- C7: with a positive window and maximum, the first `maxRequests`
requests from one origin are admitted, the next one is denied without
touching the stored count, and once the window has expired a request is
admitted again into a fresh window with count 1. -/
theorem rate_limiter_window (t wm : Int) (m : Nat) (hwm : 0 ≤ wm) (hm : 1 ≤ m) :
    (∀ n, n < m → rlAllowed t wm m n = true)
  ∧ rlAllowed t wm m m = false
  ∧ rlRun t wm m (m + 1) = rlRun t wm m m
  ∧ (∀ t2 : Int, t + wm < t2 →
      rlCheck t2 wm m (rlRun t wm m (m + 1)) = (true, some ⟨t2, 1⟩)) := by
  have hstate := rlRun_succ_eq t wm m hwm hm
  obtain ⟨j, rfl⟩ : ∃ j, m = j + 1 := ⟨m - 1, by omega⟩
  refine ⟨?_, ?_, ?_, ?_⟩
  · intro n hn
    cases n with
    | zero => simp [rlAllowed, rlRun, rlCheck]
    | succ k =>
      unfold rlAllowed
      rw [hstate k]
      unfold rlCheck
      dsimp only
      rw [if_pos (by omega : t - wm ≤ t)]
      rw [if_pos (by omega : min (k + 1) (j + 1) < j + 1)]
  · unfold rlAllowed
    rw [hstate j]
    unfold rlCheck
    dsimp only
    rw [if_pos (by omega : t - wm ≤ t)]
    rw [if_neg (by omega : ¬ min (j + 1) (j + 1) < j + 1)]
  · rw [hstate (j + 1), hstate j]
    simp only [Option.some.injEq, WindowRec.mk.injEq, true_and]
    omega
  · intro t2 ht2
    rw [hstate (j + 1)]
    unfold rlCheck
    dsimp only
    rw [if_neg (by omega : ¬ t2 - wm ≤ t)]

/-- Witness for C7 with a 60-minute window of maximum 3 starting at time 0:
request 1 is admitted, request 4 is denied, and at time 100 a fresh window
of count 1 admits again. -/
theorem rate_limiter_window_witness :
    rlAllowed 0 60 3 0 = true
  ∧ rlAllowed 0 60 3 3 = false
  ∧ rlCheck 100 60 3 (rlRun 0 60 3 4) = (true, some ⟨100, 1⟩) :=
  have H := rate_limiter_window 0 60 3 (by decide) (by decide)
  ⟨H.1 0 (by decide), H.2.1, H.2.2.2 100 (by decide)⟩

/-- Counterexample to C8: a request whose credential verifies to an
identity with an unverified email is served the success payload and a scan
is recorded — no EmailNotVerified rejection exists in the handler. -/
theorem email_not_verified_cex :
    (UserIdent.mk "u3" false).emailVerified = false
  ∧ (scanHandler (some ⟨"u3", false⟩) quarter reqOk emptyDB).1
      = ScanResp.ok quarter false
  ∧ scanCount (scanHandler (some ⟨"u3", false⟩) quarter reqOk emptyDB).2 "u3" = 1 := by
  decide

/-- C8 as amended: the scan handler performs no email-verification check at
all — its response and state effects depend only on the identity's id, so
an unverified-email identity is treated exactly like a verified one. -/
theorem scanHandler_ignores_email_verification (i : String) (b : Bool) (rand : ℚ)
    (req : ScanReq) (db : DB) :
    scanHandler (some ⟨i, b⟩) rand req db = scanHandler (some ⟨i, true⟩) rand req db := by
  obtain ⟨ah, f⟩ := req
  cases ah <;> cases f <;> rfl

/-- C9: the detection score is independent of the uploaded file — the
function never reads its file argument — and a success response carries
exactly the random sample as score together with the flag score above 1/2. -/
theorem detectAI_file_independent (f1 f2 : List Nat) (rand : ℚ)
    (a : Option UserIdent) (req : ScanReq) (db : DB) (sc : ℚ) (ai : Bool) :
    detectAI f1 rand = detectAI f2 rand
  ∧ ((scanHandler a rand req db).1 = ScanResp.ok sc ai →
      sc = rand ∧ ai = decide (half < sc)) := by
  refine ⟨rfl, ?_⟩
  intro h
  obtain ⟨ah, f⟩ := req
  cases ah with
  | none => simp [scanHandler] at h
  | some s =>
    cases a with
    | none => simp [scanHandler] at h
    | some user =>
      cases f with
      | none => simp [scanHandler] at h
      | some fl =>
        by_cases hacc : checkUserAccess db user.id
        · simp only [scanHandler, hacc, if_true, detectAI] at h
          have h2 := (ScanResp.ok.injEq ..).mp h.symm
          refine ⟨h2.1, ?_⟩
          rw [h2.1, h2.2]
        · simp [scanHandler, hacc] at h

/-- Witness for C9: two different files with the same random sample 3/4 on
a fresh user; the response score is the sample and the flag is true. -/
theorem detectAI_file_independent_witness :
    detectAI [0] threeQuarters = detectAI [1, 2] threeQuarters
  ∧ (threeQuarters = threeQuarters ∧ true = decide (half < threeQuarters)) :=
  have H := detectAI_file_independent [0] [1, 2] threeQuarters
    (some ⟨"u1", true⟩) reqOk emptyDB threeQuarters true
  ⟨H.1, H.2 (by decide)⟩

/-- C10: each one-off purchase inserts a separate credits row with
credits = 1, while the access check and the decrement consult the balance
through a single-row read; with two or more purchase rows that read yields
nothing, so the sum of the purchased credits is never consulted: the
recorder decrements nothing and the access check falls through to the
free-scan rule. -/
theorem credit_rows_not_summed (db : DB) (uid : String) (score : ℚ) (ai : Bool)
    (h2 : 2 ≤ (creditRowsFor db uid).length) :
    single (creditRowsFor db uid) = none
  ∧ (recordScan db uid score ai).credits = db.credits
  ∧ (single (activeSubsFor db uid) = none →
      checkUserAccess db uid = (scanCount db uid == 0))
  ∧ ∀ (constructEvent : String → String → String → Except String StripeEvent)
      (secret body sig : String) (ev : StripeEvent),
      constructEvent body sig secret = Except.ok ev →
      ev.type = "checkout.session.completed" → ev.mode = "payment" →
      (webhookHandler constructEvent secret body sig db).2.credits
        = db.credits ++ [⟨ev.metadataUserId, 1⟩] := by
  have hnone : single (creditRowsFor db uid) = none := single_eq_none_of_two_le _ h2
  refine ⟨hnone, recordScan_credits_of_none db uid score ai hnone, ?_, ?_⟩
  · intro hsub
    simp only [checkUserAccess, hsub, hnone]
  · intro ce secret body sig ev he ht hm
    unfold webhookHandler
    rw [he]
    simp [ht, hm]

/-- Witness for C10: a user with two 1-credit rows (sum 2) who already used
the free scan — the single-row read sees nothing, the recorder leaves the
rows alone, and access is denied despite the positive total. -/
theorem credit_rows_not_summed_witness :
    (2 ≤ (creditRowsFor dbTwoCredits "u4").length ∧ creditSum dbTwoCredits "u4" = 2
      ∧ checkUserAccess dbTwoCredits "u4" = false)
  ∧ (single (creditRowsFor dbTwoCredits "u4") = none
      ∧ (recordScan dbTwoCredits "u4" 0 false).credits = dbTwoCredits.credits
      ∧ checkUserAccess dbTwoCredits "u4" = (scanCount dbTwoCredits "u4" == 0)) :=
  have H := credit_rows_not_summed dbTwoCredits "u4" 0 false (by decide)
  ⟨by decide, H.1, H.2.1, H.2.2.1 (by decide)⟩
